import Mathlib

/-!
Shallow embedding of
`src/callouts/python/extproc/example/model_armor/service_callout_example.py`:
a Model Armor screening callout server with two body handlers
(`on_request_body`, `on_response_body`) and two screening helpers
(`screen_prompt`, `screen_model_response`).

The remote Model Armor service is modelled as an oracle mapping a recorded
sanitize call (entry point, location, template, text) to a sanitization
result; everything after the remote call is embedded faithfully from the
Python source, including Python truthiness (`or` fallback, `if not x`),
`dict.get` semantics, and the places where the Python code raises an
uncaught exception (modelled as `crash` / `Action.error`).
-/

set_option autoImplicit false

namespace ModelArmor

/-- A JSON value, the result of Python `json.loads` on a body string.
Numbers are modelled as integers; only their truthiness matters here. -/
inductive Json where
  | null
  | bool (b : Bool)
  | num (n : Int)
  | str (s : String)
  | arr (elems : List Json)
  | obj (fields : List (String × Json))

/-- Python dictionary lookup `d.get(k)` / `d[k]` on an association list
(first binding wins; JSON-loaded dicts have unique keys). -/
def dictGet {α : Type} : List (String × α) → String → Option α
  | [], _ => none
  | (k, v) :: rest, key => if k = key then some v else dictGet rest key

/-- Python dictionary assignment `d[k] = v`: replace the existing binding in
place, else append. -/
def dictSet {α : Type} : List (String × α) → String → α → List (String × α)
  | [], key, v => [(key, v)]
  | (k, w) :: rest, key, v =>
      if k = key then (key, v) :: rest else (k, w) :: dictSet rest key v

/-- Python truthiness of a JSON value (`if not x`). -/
def pyTruthy : Json → Bool
  | Json.null => false
  | Json.bool b => b
  | Json.num n => n != 0
  | Json.str s => s != ""
  | Json.arr [] => false
  | Json.arr (_ :: _) => true
  | Json.obj [] => false
  | Json.obj (_ :: _) => true

/-- The whitespace characters stripped by Python `str.strip()`
(ASCII portion). -/
def pyIsSpace (c : Char) : Bool :=
  c = ' ' || c = '\t' || c = '\n' || c = '\r' || c = '\x0b' || c = '\x0c'

/-- Python `s.strip()`: drop leading and trailing whitespace. -/
def pyStrip (s : String) : String :=
  String.mk (((s.data.dropWhile pyIsSpace).reverse.dropWhile pyIsSpace).reverse)

/-- Python `a or b` on strings: `a` when non-empty, else `b`. -/
def pyOr (a b : String) : String :=
  if a = "" then b else a

/-! ## The Model Armor verdict (sanitization result) -/

/-- `DataItem`: the sanitized text carried by a deidentify result
(proto string field, default `""`). -/
structure DataItem where
  text : String
  deriving DecidableEq

/-- `SdpDeidentifyResult`: match state of the de-identify SDP filter and its
sanitized data. `match_state` models `== FilterMatchState.MATCH_FOUND`. -/
structure DeidentifyResult where
  match_state : Bool
  data : DataItem
  deriving DecidableEq

/-- `SdpFilterResult` as accessed by the code (`.deidentify_result`). -/
structure SdpFilterResult where
  deidentify_result : DeidentifyResult
  deriving DecidableEq

/-- A per-filter result; the code only reads its `sdp_filter_result` part
(which is a default message when the filter is not the SDP filter). -/
structure FilterResult where
  sdp_filter_result : SdpFilterResult
  deriving DecidableEq

/-- `sanitization_result` of a sanitize response: the overall
`filter_match_state` (modelled as `== MATCH_FOUND`) and the per-filter
results map. -/
structure SanitizationResult where
  filter_match_state : Bool
  filter_results : List (String × FilterResult)
  deriving DecidableEq

/-! ## The client call surface -/

/-- Which Model Armor client method a screening helper invokes. -/
inductive EntryPoint where
  | sanitizeUserPrompt
  | sanitizeModelResponse
  deriving DecidableEq

/-- The environment variables the module reads via `os.environ.get`. -/
structure Env where
  MA_LOCATION : Option String
  MA_PROMPT_TEMPLATE : Option String
  MA_RESPONSE_TEMPLATE : Option String
  deriving DecidableEq

/-- A record of one call to the Model Armor client: the entry point
(method), the location used for the API endpoint, the template name in the
request, and the screened text. -/
structure SanitizeCall where
  entry : EntryPoint
  location : Option String
  template : Option String
  text : String
  deriving DecidableEq

/-- The result of a screening helper: a normal Python return
`(is_invalid, final_text)`, or an uncaught exception (`crash`, the
`AttributeError` raised by `.get("sdp")` returning `None` when the `"sdp"`
key is absent from `filter_results`). -/
inductive ScreenOutcome where
  | ok (is_invalid : Bool) (final_text : String)
  | crash
  deriving DecidableEq

/-- The verdict-handling portion of `screen_prompt` (everything after the
client call): interpret the sanitization result for a prompt.
Mirrors the source: if any filter matched, look up `"sdp"` (a missing key
makes `.get` return `None` and the subsequent attribute access raise); if
the SDP de-identify filter matched, take its sanitized text with a Python
`or` fallback to the original prompt; otherwise mark the prompt invalid. -/
def interpret_prompt (prompt : String) (r : SanitizationResult) : ScreenOutcome :=
  if r.filter_match_state then
    match dictGet r.filter_results "sdp" with
    | none => ScreenOutcome.crash
    | some fr =>
        if fr.sdp_filter_result.deidentify_result.match_state then
          ScreenOutcome.ok false
            (pyOr fr.sdp_filter_result.deidentify_result.data.text prompt)
        else
          ScreenOutcome.ok true prompt
  else
    ScreenOutcome.ok false prompt

/-- The verdict-handling portion of `screen_model_response`: same shape as
`interpret_prompt` but with no `or` fallback on the sanitized text. -/
def interpret_response (model_response : String) (r : SanitizationResult) :
    ScreenOutcome :=
  if r.filter_match_state then
    match dictGet r.filter_results "sdp" with
    | none => ScreenOutcome.crash
    | some fr =>
        if fr.sdp_filter_result.deidentify_result.match_state then
          ScreenOutcome.ok false fr.sdp_filter_result.deidentify_result.data.text
        else
          ScreenOutcome.ok true model_response
  else
    ScreenOutcome.ok false model_response

/-- `screen_prompt`: issues one `sanitize_user_prompt` call with the
`MA_PROMPT_TEMPLATE` template against the `MA_LOCATION` endpoint, and
interprets the result. Returns the outcome together with the recorded
client call. -/
def screen_prompt (env : Env) (oracle : SanitizeCall → SanitizationResult)
    (prompt : String) : ScreenOutcome × SanitizeCall :=
  let call : SanitizeCall :=
    { entry := EntryPoint.sanitizeUserPrompt
      location := env.MA_LOCATION
      template := env.MA_PROMPT_TEMPLATE
      text := prompt }
  (interpret_prompt prompt (oracle call), call)

/-- `screen_model_response`: issues one `sanitize_model_response` call with
the `MA_RESPONSE_TEMPLATE` template against the `MA_LOCATION` endpoint, and
interprets the result. Defined in the source but never called by either
handler. -/
def screen_model_response (env : Env)
    (oracle : SanitizeCall → SanitizationResult) (model_response : String) :
    ScreenOutcome × SanitizeCall :=
  let call : SanitizeCall :=
    { entry := EntryPoint.sanitizeModelResponse
      location := env.MA_LOCATION
      template := env.MA_RESPONSE_TEMPLATE
      text := model_response }
  (interpret_response model_response (oracle call), call)

/-! ## The body handlers -/

/-- The action a body handler returns to Envoy:
`passThrough` models `callout_tools.add_body_mutation()` with no body;
`mutate` models `add_body_mutation(body=json.dumps(...))` carrying the new
body; `immediateResponse` models `header_immediate_response(code, headers)`;
`deny` models `deny_callout(context, msg)`; `error` models an uncaught
Python exception escaping the handler. -/
inductive Action where
  | passThrough
  | mutate (newBody : Json)
  | immediateResponse (code : Nat) (headers : List (String × String))
  | deny (msg : String)
  | error

/-- Instrumentation of a handler run: how many times `json.loads` was
attempted and which Model Armor client calls were issued. -/
structure HandlerTrace where
  parseCalls : Nat
  sanitizeCalls : List SanitizeCall
  deriving DecidableEq

/-- Resolve the response-direction extraction path
`response_body_json["choices"][0]["message"]["content"]`.
`none` models an uncaught exception (`KeyError` / `IndexError` /
`TypeError`) at some step of the chain. -/
def getChoicesContent (j : Json) : Option Json :=
  match j with
  | Json.obj fields =>
      match dictGet fields "choices" with
      | some (Json.arr (c :: _)) =>
          match c with
          | Json.obj cfields =>
              match dictGet cfields "message" with
              | some (Json.obj mfields) => dictGet mfields "content"
              | _ => none
          | _ => none
      | _ => none
  | _ => none

/-- Perform the response-direction injection
`response_body_json["choices"][0]["message"]["content"] = v` and return the
updated document; `none` models the exception raised when the path down to
the message dictionary does not resolve. -/
def setChoicesContent (j : Json) (v : String) : Option Json :=
  match j with
  | Json.obj fields =>
      match dictGet fields "choices" with
      | some (Json.arr (c :: rest)) =>
          match c with
          | Json.obj cfields =>
              match dictGet cfields "message" with
              | some (Json.obj mfields) =>
                  some (Json.obj (dictSet fields "choices"
                    (Json.arr (Json.obj (dictSet cfields "message"
                      (Json.obj (dictSet mfields "content" (Json.str v))))
                      :: rest))))
              | _ => none
          | _ => none
      | _ => none
  | _ => none

/-- `on_request_body`: strip the decoded body (empty → pass-through),
parse it as JSON (`parse` is the `json.loads` oracle; `none` models a
`JSONDecodeError`), read `body_json.get("prompt", "")` (raises when the
document is not a dictionary), pass empty/falsy prompts through, screen the
prompt, and either return a 403 immediate response or write the screened
prompt back into the body. -/
def on_request_body (env : Env) (parse : String → Option Json)
    (oracle : SanitizeCall → SanitizationResult) (raw : String) :
    Action × HandlerTrace :=
  let body_content := pyStrip raw
  if body_content = "" then
    (Action.passThrough, ⟨0, []⟩)
  else
    match parse body_content with
    | none => (Action.error, ⟨1, []⟩)
    | some (Json.obj fields) =>
        let prompt := (dictGet fields "prompt").getD (Json.str "")
        if pyTruthy prompt then
          match prompt with
          | Json.str p =>
              match screen_prompt env oracle p with
              | (ScreenOutcome.crash, call) => (Action.error, ⟨1, [call]⟩)
              | (ScreenOutcome.ok true _, call) =>
                  (Action.immediateResponse 403
                    [("model-armour-message",
                      "Provided prompt does not comply with Responsible AI filter")],
                   ⟨1, [call]⟩)
              | (ScreenOutcome.ok false valid_prompt, call) =>
                  (Action.mutate
                    (Json.obj (dictSet fields "prompt" (Json.str valid_prompt))),
                   ⟨1, [call]⟩)
          | _ => (Action.error, ⟨1, []⟩)
        else
          (Action.passThrough, ⟨1, []⟩)
    | some _ => (Action.error, ⟨1, []⟩)

/-- `on_response_body`: strip the decoded body (empty → pass-through),
parse it as JSON, resolve `["choices"][0]["message"]["content"]` (a
non-resolving path raises), pass empty/falsy content through, screen the
content — the source calls `screen_prompt` here, not
`screen_model_response` — and either deny the response or write the
screened content back along the same path. -/
def on_response_body (env : Env) (parse : String → Option Json)
    (oracle : SanitizeCall → SanitizationResult) (raw : String) :
    Action × HandlerTrace :=
  let body_content := pyStrip raw
  if body_content = "" then
    (Action.passThrough, ⟨0, []⟩)
  else
    match parse body_content with
    | none => (Action.error, ⟨1, []⟩)
    | some j =>
        match getChoicesContent j with
        | none => (Action.error, ⟨1, []⟩)
        | some content =>
            if pyTruthy content then
              match content with
              | Json.str p =>
                  match screen_prompt env oracle p with
                  | (ScreenOutcome.crash, call) => (Action.error, ⟨1, [call]⟩)
                  | (ScreenOutcome.ok true _, call) =>
                      (Action.deny
                        "Model response violates responsible AI filters. Update the prompt or contact application admin if issue persists.",
                       ⟨1, [call]⟩)
                  | (ScreenOutcome.ok false valid, call) =>
                      match setChoicesContent j valid with
                      | some j2 => (Action.mutate j2, ⟨1, [call]⟩)
                      | none => (Action.error, ⟨1, [call]⟩)
              | _ => (Action.error, ⟨1, []⟩)
            else
              (Action.passThrough, ⟨1, []⟩)

/-! ## Pure extraction/injection helpers (for the round-trip claim)

These are the direction-specific content paths of the two handlers,
expressed on parsed documents: `extract_prompt` is
`body_json.get("prompt", "")` followed by the emptiness guard from
`on_request_body`; `inject_prompt` is `body_json["prompt"] = v`;
`extract_content` is the path resolution plus emptiness guard from
`on_response_body`. -/

/-- Prompt-direction extraction on a parsed document: `some t` when the
top-level `"prompt"` key holds a non-empty string, `none` (Absent) when the
key is missing or the text empty. Non-dictionary documents and non-string
truthy values do not extract. -/
def extract_prompt (j : Json) : Option String :=
  match j with
  | Json.obj fields =>
      match (dictGet fields "prompt").getD (Json.str "") with
      | Json.str s => if s = "" then none else some s
      | _ => none
  | _ => none

/-- Prompt-direction injection on a parsed document:
`body_json["prompt"] = v` (the document is a dictionary at this point in
the handler). -/
def inject_prompt (fields : List (String × Json)) (v : String) : Json :=
  Json.obj (dictSet fields "prompt" (Json.str v))

/-- Response-direction extraction on a parsed document: `some t` when
`["choices"][0]["message"]["content"]` resolves to a non-empty string. -/
def extract_content (j : Json) : Option String :=
  match getChoicesContent j with
  | some (Json.str s) => if s = "" then none else some s
  | _ => none

/-! ## Basic lemmas -/

theorem dictGet_dictSet {α : Type} (fs : List (String × α)) (k : String) (v : α) :
    dictGet (dictSet fs k v) k = some v := by
  induction fs with
  | nil => simp [dictSet, dictGet]
  | cons hd tl ih =>
      obtain ⟨k', v'⟩ := hd
      by_cases h : k' = k <;> simp [dictSet, dictGet, h, ih]

/-! ## Concrete fixtures for witnesses and counterexamples -/

/-- A concrete environment. -/
def env0 : Env :=
  { MA_LOCATION := some "us-central1"
    MA_PROMPT_TEMPLATE := some "ma-prompt-template"
    MA_RESPONSE_TEMPLATE := some "ma-response-template" }

/-- A default (all-unset) per-filter result, as a proto default message. -/
def frDefault : FilterResult := ⟨⟨⟨false, ⟨""⟩⟩⟩⟩

/-- An SDP filter result whose de-identify filter matched, carrying
sanitized text `t`. -/
def frSdpMatch (t : String) : FilterResult := ⟨⟨⟨true, ⟨t⟩⟩⟩⟩

/-- Verdict: no filter matched. -/
def vNoMatch : SanitizationResult := ⟨false, [("sdp", frDefault)]⟩

/-- Verdict: some filter matched, `"sdp"` present but unmatched. -/
def vOtherMatch : SanitizationResult := ⟨true, [("sdp", frDefault), ("rai", frDefault)]⟩

/-- Verdict: some filter matched, `"sdp"` absent from the results map. -/
def vSdpAbsent : SanitizationResult := ⟨true, [("rai", frDefault)]⟩

/-- Verdict: the SDP de-identify filter matched with sanitized text `t`. -/
def vSdpRewrite (t : String) : SanitizationResult := ⟨true, [("sdp", frSdpMatch t)]⟩

/-- An oracle that answers every sanitize call with the fixed result `r`. -/
def oracleOf (r : SanitizationResult) : SanitizeCall → SanitizationResult :=
  fun _ => r

/-- A `json.loads` oracle that parses exactly the string `s` to `j`. -/
def parseOf (s : String) (j : Json) : String → Option Json :=
  fun t => if t = s then some j else none

/-! ## Claims about verdict interpretation -/

/-- C2 counterexample: with `matched = true` and the `"sdp"` key absent
from `filter_results`, `interpret_prompt` crashes (the Python code raises
`AttributeError` on `.get("sdp")` returning `None`) instead of returning
the Block outcome `ok true`. -/
theorem C2_sdp_absent_crashes_not_blocks :
    interpret_prompt "hello" vSdpAbsent = ScreenOutcome.crash ∧
    interpret_prompt "hello" vSdpAbsent ≠ ScreenOutcome.ok true "hello" := by
  decide

/-- C2 (amended): for every Verdict with `matched = true` whose `"sdp"`
filter is present but unmatched, interpretation returns Block
(`ok true` with the original text), in both directions, regardless of
which other filter keys are present; when `"sdp"` is absent the screening
call raises instead of blocking. -/
theorem C2_matched_without_sdp_match_blocks (p : String)
    (r : SanitizationResult) (fr : FilterResult)
    (hm : r.filter_match_state = true)
    (hs : dictGet r.filter_results "sdp" = some fr)
    (hf : fr.sdp_filter_result.deidentify_result.match_state = false) :
    interpret_prompt p r = ScreenOutcome.ok true p ∧
    interpret_response p r = ScreenOutcome.ok true p := by
  constructor <;> simp [interpret_prompt, interpret_response, hm, hs, hf]

/-- C2 witness: the amended theorem applied to a concrete verdict where the
`"rai"` filter triggered and `"sdp"` is present but unmatched. -/
theorem C2_matched_without_sdp_match_blocks_witness :
    interpret_prompt "hello" vOtherMatch = ScreenOutcome.ok true "hello" ∧
    interpret_response "hello" vOtherMatch = ScreenOutcome.ok true "hello" :=
  C2_matched_without_sdp_match_blocks "hello" vOtherMatch frDefault rfl rfl rfl

/-- C3: for every Verdict with `matched = false`, interpretation returns
Allow with the text unchanged (`ok false` with the original text), in both
directions, for every per-filter results map (so the map is never
consulted). -/
theorem C3_unmatched_allows_unchanged (p : String) (r : SanitizationResult)
    (h : r.filter_match_state = false) :
    interpret_prompt p r = ScreenOutcome.ok false p ∧
    interpret_response p r = ScreenOutcome.ok false p := by
  constructor <;> simp [interpret_prompt, interpret_response, h]

/-- C3 witness: the theorem applied to a concrete unmatched verdict. -/
theorem C3_unmatched_allows_unchanged_witness :
    interpret_prompt "hi there" vNoMatch = ScreenOutcome.ok false "hi there" ∧
    interpret_response "hi there" vNoMatch = ScreenOutcome.ok false "hi there" :=
  C3_unmatched_allows_unchanged "hi there" vNoMatch rfl

/-- C4: for every Verdict with `matched = true` whose `"sdp"` filter
matched, interpretation returns Rewrite (`ok false`): in the Prompt
direction with the sdp filter's sanitized text when one is present
(non-empty) and with the original text unchanged otherwise; in the
Response direction with the sanitized text when one is present. -/
theorem C4_sdp_match_rewrites (p : String) (r : SanitizationResult)
    (fr : FilterResult)
    (hm : r.filter_match_state = true)
    (hs : dictGet r.filter_results "sdp" = some fr)
    (hf : fr.sdp_filter_result.deidentify_result.match_state = true) :
    (fr.sdp_filter_result.deidentify_result.data.text ≠ "" →
      interpret_prompt p r =
        ScreenOutcome.ok false fr.sdp_filter_result.deidentify_result.data.text) ∧
    (fr.sdp_filter_result.deidentify_result.data.text = "" →
      interpret_prompt p r = ScreenOutcome.ok false p) ∧
    (fr.sdp_filter_result.deidentify_result.data.text ≠ "" →
      interpret_response p r =
        ScreenOutcome.ok false fr.sdp_filter_result.deidentify_result.data.text) := by
  refine ⟨fun ht => ?_, fun ht => ?_, fun ht => ?_⟩ <;>
    simp [interpret_prompt, interpret_response, pyOr, hm, hs, hf, ht]

/-- C4 witness: the theorem applied to a concrete sdp-matched verdict with
non-empty sanitized text. -/
theorem C4_sdp_match_rewrites_witness :
    interpret_prompt "my ssn is 123" (vSdpRewrite "my ssn is [REDACTED]") =
      ScreenOutcome.ok false "my ssn is [REDACTED]" ∧
    interpret_response "my ssn is 123" (vSdpRewrite "my ssn is [REDACTED]") =
      ScreenOutcome.ok false "my ssn is [REDACTED]" :=
  ⟨(C4_sdp_match_rewrites "my ssn is 123" (vSdpRewrite "my ssn is [REDACTED]")
      (frSdpMatch "my ssn is [REDACTED]") rfl rfl rfl).1 (by decide),
   (C4_sdp_match_rewrites "my ssn is 123" (vSdpRewrite "my ssn is [REDACTED]")
      (frSdpMatch "my ssn is [REDACTED]") rfl rfl rfl).2.2 (by decide)⟩

/-- C10: whenever a screening helper returns with the invalid flag set
(`ok true`), the accompanying text is the original input unchanged, in both
directions: a blocking verdict never carries a rewritten text. -/
theorem C10_blocking_returns_original_text (p t : String)
    (r : SanitizationResult) :
    (interpret_prompt p r = ScreenOutcome.ok true t → t = p) ∧
    (interpret_response p r = ScreenOutcome.ok true t → t = p) := by
  constructor <;> intro h <;>
    [unfold interpret_prompt at h; unfold interpret_response at h] <;>
    split at h <;> try (exact absurd h (by simp))
  case _ =>
    split at h
    · exact ScreenOutcome.noConfusion h
    · split at h
      · exact absurd h (by simp)
      · injection h with h1 h2
        exact h2.symm
  case _ =>
    split at h
    · exact ScreenOutcome.noConfusion h
    · split at h
      · exact absurd h (by simp)
      · injection h with h1 h2
        exact h2.symm

/-- C10 witness: the theorem applied to a blocking verdict on a concrete
prompt. -/
theorem C10_blocking_returns_original_text_witness :
    interpret_prompt "attack text" vOtherMatch = ScreenOutcome.ok true "attack text" ∧
    interpret_response "attack text" vOtherMatch = ScreenOutcome.ok true "attack text" ∧
    "attack text" = "attack text" :=
  ⟨by decide, by decide,
   (C10_blocking_returns_original_text "attack text" "attack text" vOtherMatch).1
     (by decide)⟩

/-! ## Claims about the handlers -/

/-- A concrete response body whose content path resolves to `"hi"`. -/
def rawRespHi : String :=
  "\x7b\"choices\": [\x7b\"message\": \x7b\"content\": \"hi\"\x7d\x7d]\x7d"

/-- The parsed document of `rawRespHi`. -/
def jRespHi : Json :=
  Json.obj [("choices", Json.arr
    [Json.obj [("message", Json.obj [("content", Json.str "hi")])]])]

/-- C1: the Response-direction handler does NOT use the response template
and response entry point: on a concrete response body it issues a
`sanitize_user_prompt` call with `MA_PROMPT_TEMPLATE` (it calls
`screen_prompt`), while the never-called `screen_model_response` is the
function that would have issued the `sanitize_model_response` call with
`MA_RESPONSE_TEMPLATE`. -/
theorem C1_response_handler_uses_prompt_endpoint :
    (on_response_body env0 (parseOf rawRespHi jRespHi) (oracleOf vNoMatch)
        rawRespHi).2.sanitizeCalls =
      [{ entry := EntryPoint.sanitizeUserPrompt, location := some "us-central1",
         template := some "ma-prompt-template", text := "hi" }] ∧
    (screen_model_response env0 (oracleOf vNoMatch) "hi").2 =
      { entry := EntryPoint.sanitizeModelResponse, location := some "us-central1",
        template := some "ma-response-template", text := "hi" } := by
  constructor <;> rfl

/-- C5: a Block outcome is translated direction-specifically: in the Prompt
direction the handler returns an immediate response with HTTP status 403
and the `model-armour-message` header; in the Response direction it returns
a denial with the fixed message. -/
theorem C5_block_translation_direction_specific (env : Env)
    (oracle : SanitizeCall → SanitizationResult) :
    (∀ (parse : String → Option Json) (raw : String)
        (fields : List (String × Json)) (p t : String),
      pyStrip raw ≠ "" →
      parse (pyStrip raw) = some (Json.obj fields) →
      dictGet fields "prompt" = some (Json.str p) →
      p ≠ "" →
      (screen_prompt env oracle p).1 = ScreenOutcome.ok true t →
      (on_request_body env parse oracle raw).1 =
        Action.immediateResponse 403
          [("model-armour-message",
            "Provided prompt does not comply with Responsible AI filter")]) ∧
    (∀ (parse : String → Option Json) (raw : String) (j : Json) (p t : String),
      pyStrip raw ≠ "" →
      parse (pyStrip raw) = some j →
      getChoicesContent j = some (Json.str p) →
      p ≠ "" →
      (screen_prompt env oracle p).1 = ScreenOutcome.ok true t →
      (on_response_body env parse oracle raw).1 =
        Action.deny "Model response violates responsible AI filters. Update the prompt or contact application admin if issue persists.") := by
  constructor
  · intro parse raw fields p t h1 h2 h3 h4 h5
    simp only [screen_prompt] at h5
    simp [on_request_body, screen_prompt, h1, h2, h3, h4, h5, pyTruthy]
  · intro parse raw j p t h1 h2 h3 h4 h5
    simp only [screen_prompt] at h5
    simp [on_response_body, screen_prompt, h1, h2, h3, h4, h5, pyTruthy]

/-- A concrete request body carrying the prompt `"attack"`. -/
def rawReqAttack : String := "\x7b\"prompt\": \"attack\"\x7d"

/-- The fields of the parsed document of `rawReqAttack`. -/
def fieldsReqAttack : List (String × Json) := [("prompt", Json.str "attack")]

/-- A concrete response body whose content path resolves to `"attack"`. -/
def rawRespAttack : String :=
  "\x7b\"choices\": [\x7b\"message\": \x7b\"content\": \"attack\"\x7d\x7d]\x7d"

/-- The parsed document of `rawRespAttack`. -/
def jRespAttack : Json :=
  Json.obj [("choices", Json.arr
    [Json.obj [("message", Json.obj [("content", Json.str "attack")])]])]

/-- C5 witness: with a verdict where a non-sdp filter matched, the request
handler returns the 403 immediate response and the response handler returns
the fixed denial. -/
theorem C5_block_translation_direction_specific_witness :
    (on_request_body env0 (parseOf rawReqAttack (Json.obj fieldsReqAttack))
        (oracleOf vOtherMatch) rawReqAttack).1 =
      Action.immediateResponse 403
        [("model-armour-message",
          "Provided prompt does not comply with Responsible AI filter")] ∧
    (on_response_body env0 (parseOf rawRespAttack jRespAttack)
        (oracleOf vOtherMatch) rawRespAttack).1 =
      Action.deny "Model response violates responsible AI filters. Update the prompt or contact application admin if issue persists." :=
  ⟨(C5_block_translation_direction_specific env0 (oracleOf vOtherMatch)).1
      (parseOf rawReqAttack (Json.obj fieldsReqAttack)) rawReqAttack
      fieldsReqAttack "attack" "attack" (by decide) rfl rfl (by decide) (by decide),
   (C5_block_translation_direction_specific env0 (oracleOf vOtherMatch)).2
      (parseOf rawRespAttack jRespAttack) rawRespAttack jRespAttack
      "attack" "attack" (by decide) rfl rfl (by decide) (by decide)⟩

/-- The empty JSON object body. -/
def rawEmptyObj : String := "\x7b\x7d"

/-- C6 counterexample: on the well-formed response body `{}` the content
path does not resolve, and the handler raises (`Action.error`) instead of
returning PassThrough. -/
theorem C6_response_missing_path_errors :
    (on_response_body env0 (parseOf rawEmptyObj (Json.obj []))
        (oracleOf vNoMatch) rawEmptyObj).1 = Action.error ∧
    (on_response_body env0 (parseOf rawEmptyObj (Json.obj []))
        (oracleOf vNoMatch) rawEmptyObj).1 ≠ Action.passThrough := by
  have he : (on_response_body env0 (parseOf rawEmptyObj (Json.obj []))
      (oracleOf vNoMatch) rawEmptyObj).1 = Action.error := rfl
  exact ⟨he, fun h => Action.noConfusion (he.symm.trans h)⟩

/-- C6 (amended): on a parseable body, a non-resolving or empty Prompt-path
yields PassThrough; on the Response path only a resolved-but-empty content
yields PassThrough, while a non-resolving path raises an uncaught error. -/
theorem C6_absent_content_direction_specific (env : Env)
    (oracle : SanitizeCall → SanitizationResult) :
    (∀ (parse : String → Option Json) (raw : String)
        (fields : List (String × Json)),
      pyStrip raw ≠ "" →
      parse (pyStrip raw) = some (Json.obj fields) →
      (dictGet fields "prompt" = none ∨
        dictGet fields "prompt" = some (Json.str "")) →
      (on_request_body env parse oracle raw).1 = Action.passThrough) ∧
    (∀ (parse : String → Option Json) (raw : String) (j : Json),
      pyStrip raw ≠ "" →
      parse (pyStrip raw) = some j →
      getChoicesContent j = some (Json.str "") →
      (on_response_body env parse oracle raw).1 = Action.passThrough) ∧
    (∀ (parse : String → Option Json) (raw : String) (j : Json),
      pyStrip raw ≠ "" →
      parse (pyStrip raw) = some j →
      getChoicesContent j = none →
      (on_response_body env parse oracle raw).1 = Action.error) := by
  refine ⟨fun parse raw fields h1 h2 h3 => ?_,
          fun parse raw j h1 h2 h3 => ?_,
          fun parse raw j h1 h2 h3 => ?_⟩
  · rcases h3 with h3 | h3 <;> simp [on_request_body, h1, h2, h3, pyTruthy]
  · simp [on_response_body, h1, h2, h3, pyTruthy]
  · simp [on_response_body, h1, h2, h3]

/-- A request body without a `"prompt"` key. -/
def rawReqOther : String := "\x7b\"other\": 1\x7d"

/-- A response body whose content path resolves to the empty string. -/
def rawRespEmpty : String :=
  "\x7b\"choices\": [\x7b\"message\": \x7b\"content\": \"\"\x7d\x7d]\x7d"

/-- The parsed document of `rawRespEmpty`. -/
def jRespEmpty : Json :=
  Json.obj [("choices", Json.arr
    [Json.obj [("message", Json.obj [("content", Json.str "")])]])]

/-- C6 witness: the amended theorem at concrete bodies — a request body
with no `"prompt"` key passes through, a response body with empty content
passes through, and the response body `{}` errors. -/
theorem C6_absent_content_direction_specific_witness :
    (on_request_body env0 (parseOf rawReqOther (Json.obj [("other", Json.num 1)]))
        (oracleOf vNoMatch) rawReqOther).1 = Action.passThrough ∧
    (on_response_body env0 (parseOf rawRespEmpty jRespEmpty)
        (oracleOf vNoMatch) rawRespEmpty).1 = Action.passThrough ∧
    (on_response_body env0 (parseOf rawEmptyObj (Json.obj []))
        (oracleOf vOtherMatch) rawEmptyObj).1 = Action.error :=
  ⟨(C6_absent_content_direction_specific env0 (oracleOf vNoMatch)).1
      (parseOf rawReqOther (Json.obj [("other", Json.num 1)])) rawReqOther
      [("other", Json.num 1)] (by decide) rfl (Or.inl rfl),
   (C6_absent_content_direction_specific env0 (oracleOf vNoMatch)).2.1
      (parseOf rawRespEmpty jRespEmpty) rawRespEmpty jRespEmpty
      (by decide) rfl rfl,
   (C6_absent_content_direction_specific env0 (oracleOf vOtherMatch)).2.2
      (parseOf rawEmptyObj (Json.obj [])) rawEmptyObj (Json.obj [])
      (by decide) rfl rfl⟩

/-- C7: a body that is empty after decoding and stripping makes both
handlers return PassThrough with zero parse attempts and zero client calls
— never a malformed-payload error. -/
theorem C7_blank_body_passthrough_no_parse (env : Env)
    (parse : String → Option Json) (oracle : SanitizeCall → SanitizationResult)
    (raw : String) (h : pyStrip raw = "") :
    on_request_body env parse oracle raw = (Action.passThrough, ⟨0, []⟩) ∧
    on_response_body env parse oracle raw = (Action.passThrough, ⟨0, []⟩) := by
  constructor <;> simp [on_request_body, on_response_body, h]

/-- C7 witness: the theorem at a whitespace-only body. -/
theorem C7_blank_body_passthrough_no_parse_witness :
    on_request_body env0 (fun _ => none) (oracleOf vOtherMatch) "  \t\r\n  " =
      (Action.passThrough, ⟨0, []⟩) ∧
    on_response_body env0 (fun _ => none) (oracleOf vOtherMatch) "  \t\r\n  " =
      (Action.passThrough, ⟨0, []⟩) :=
  C7_blank_body_passthrough_no_parse env0 (fun _ => none) (oracleOf vOtherMatch)
    "  \t\r\n  " (by decide)

/-- C8: when the extracted prompt is absent (missing key or falsy value,
e.g. the empty string), the request handler returns PassThrough and issues
no Model Armor client call, for every oracle. -/
theorem C8_absent_prompt_never_screens (env : Env)
    (parse : String → Option Json) (oracle : SanitizeCall → SanitizationResult)
    (raw : String) (fields : List (String × Json))
    (h1 : pyStrip raw ≠ "")
    (h2 : parse (pyStrip raw) = some (Json.obj fields))
    (h3 : pyTruthy ((dictGet fields "prompt").getD (Json.str "")) = false) :
    on_request_body env parse oracle raw = (Action.passThrough, ⟨1, []⟩) := by
  simp [on_request_body, h1, h2, h3]

/-- The request body with an empty prompt. -/
def rawReqEmptyPrompt : String := "\x7b\"prompt\": \"\"\x7d"

/-- C8 witness: the theorem at the concrete input with an empty prompt,
against a blocking oracle (which is never consulted). -/
theorem C8_absent_prompt_never_screens_witness :
    on_request_body env0
      (parseOf rawReqEmptyPrompt (Json.obj [("prompt", Json.str "")]))
      (oracleOf vOtherMatch) rawReqEmptyPrompt =
      (Action.passThrough, ⟨1, []⟩) :=
  C8_absent_prompt_never_screens env0
    (parseOf rawReqEmptyPrompt (Json.obj [("prompt", Json.str "")]))
    (oracleOf vOtherMatch) rawReqEmptyPrompt [("prompt", Json.str "")]
    (by decide) rfl rfl

/-- C9: the inject/extract round-trip along each direction-specific path:
injecting a non-empty rewritten text into a parsed request document and
extracting again yields exactly that text; and on a response document on
which the injection path resolves, injecting and extracting again yields
exactly that text. -/
theorem C9_inject_extract_roundtrip (t : String) (ht : t ≠ "")
    (fields fields2 cfields mfields : List (String × Json)) (rest : List Json)
    (hch : dictGet fields2 "choices" = some (Json.arr (Json.obj cfields :: rest)))
    (hmsg : dictGet cfields "message" = some (Json.obj mfields))
    (j2 : Json) (hj2 : setChoicesContent (Json.obj fields2) t = some j2) :
    extract_prompt (inject_prompt fields t) = some t ∧
    extract_content j2 = some t := by
  constructor
  · simp [extract_prompt, inject_prompt, dictGet_dictSet, ht]
  · simp [setChoicesContent, hch, hmsg] at hj2
    subst hj2
    simp [extract_content, getChoicesContent, dictGet_dictSet, ht]

/-- Fields of a response document for the round-trip witness. -/
def mfieldsC9 : List (String × Json) := [("content", Json.str "dirty")]

/-- The message object fields for the round-trip witness. -/
def cfieldsC9 : List (String × Json) := [("message", Json.obj mfieldsC9)]

/-- The top-level fields for the round-trip witness. -/
def fields2C9 : List (String × Json) :=
  [("choices", Json.arr [Json.obj cfieldsC9])]

/-- The response document after injecting `"clean"`. -/
def jC9out : Json :=
  Json.obj [("choices", Json.arr
    [Json.obj [("message", Json.obj [("content", Json.str "clean")])]])]

/-- C9 witness: the round-trip at concrete documents and the rewritten
text `"clean"`. -/
theorem C9_inject_extract_roundtrip_witness :
    extract_prompt (inject_prompt [("prompt", Json.str "orig")] "clean") =
      some "clean" ∧
    extract_content jC9out = some "clean" :=
  C9_inject_extract_roundtrip "clean" (by decide)
    [("prompt", Json.str "orig")] fields2C9 cfieldsC9 mfieldsC9 []
    rfl rfl jC9out rfl

end ModelArmor
